import Mathlib

/-!
Shallow embedding of the Icelandic chemistry tutor's content-processing,
validation, ingestion-identifier, and RAG-orchestration logic, translated from
the Python sources (`content_processor.py`, `chapter_validator.py`,
`ingest.py`, `batch_ingest.py`, `rag_pipeline.py`, `llm_client.py`), together
with theorems settling the specification claims about them.
-/

namespace ChemTutor

set_option maxRecDepth 16000

deriving instance DecidableEq for Except

/-! ## Python string primitives

Python string semantics modelled over Lean `String` and `List Char`.  `\s`,
`str.strip` and `str.split` are modelled for their ASCII whitespace classes
(`\t \n \v \f \r` and space); the additional Unicode whitespace and digit
classes of Python's `re` are outside the modelled input domain, as are
ill-formed strings containing lone surrogates (a Lean `String` is always a
sequence of Unicode scalar values, so the UTF-8 encode/decode round-trip that
the sources perform always succeeds on the modelled domain). -/

/-- Python's `\s` / `str.split()` whitespace, restricted to ASCII. -/
def pyWs (c : Char) : Bool :=
  c == ' ' || c == '\t' || c == '\n' || c == '\r' || c == '\x0b' || c == '\x0c'

/-- `str.strip()` on a character list. -/
def pyStripList (cs : List Char) : List Char :=
  ((cs.dropWhile pyWs).reverse.dropWhile pyWs).reverse

/-- `str.strip()`. -/
def pyStrip (s : String) : String := (pyStripList s.toList).asString

/-- `str.rstrip()`. -/
def pyRstrip (s : String) : String := (s.toList.reverse.dropWhile pyWs).reverse.asString

/-- Helper for `str.split()`: accumulate the current word (reversed) while
scanning the characters. -/
def pyWordsAux : List Char → List Char → List String
  | acc, [] => if acc.isEmpty then [] else [acc.reverse.asString]
  | acc, c :: cs =>
    if pyWs c then
      if acc.isEmpty then pyWordsAux [] cs
      else acc.reverse.asString :: pyWordsAux [] cs
    else pyWordsAux (c :: acc) cs

/-- `str.split()` with no argument: maximal runs of non-whitespace characters. -/
def pyWords (s : String) : List String := pyWordsAux [] s.toList

/-- `str.split(sep)` on character lists for a non-empty separator, scanning
left to right over non-overlapping occurrences.  The fuel argument bounds the
number of scanned characters (one unit per input character is enough). -/
def splitOnAuxLC (pat : List Char) : Nat → List Char → List Char → List (List Char)
  | 0, acc, rest => [acc.reverse ++ rest]
  | fuel+1, acc, rest =>
    if pat.isPrefixOf rest then
      acc.reverse :: splitOnAuxLC pat fuel [] (rest.drop pat.length)
    else
      match rest with
      | [] => [acc.reverse]
      | c :: cs => splitOnAuxLC pat fuel (c :: acc) cs

/-- `str.split(sep)` for a non-empty separator. -/
def pySplitOn (s pat : String) : List String :=
  (splitOnAuxLC pat.toList (s.toList.length + 1) [] s.toList).map List.asString

/-- `content.split('\n')`. -/
def pyLines (s : String) : List String := pySplitOn s "\n"

/-- `str.count(pat)` for a non-empty pattern (non-overlapping occurrences). -/
def countSub (s pat : String) : Nat := (pySplitOn s pat).length - 1

/-- `pat in s` for a non-empty pattern. -/
def hasSub (s pat : String) : Bool := decide (2 ≤ (pySplitOn s pat).length)

/-- `str.startswith(pre)`. -/
def pyStartsWith (s pre : String) : Bool := pre.toList.isPrefixOf s.toList

/-- `str.endswith(suf)`. -/
def pyEndsWith (s suf : String) : Bool := suf.toList.isSuffixOf s.toList

/-- `'\n'.join(lines)` and friends. -/
def pyJoin (sep : String) : List String → String
  | [] => ""
  | [l] => l
  | l :: ls => l ++ sep ++ pyJoin sep ls

/-- `int(...)` on a non-empty string of ASCII digits. -/
def digitsToNat (cs : List Char) : Nat :=
  cs.foldl (fun acc c => acc * 10 + (c.toNat - '0'.toNat)) 0

/-! ## Hand-compiled regular-expression matchers

Each matcher below is compiled by hand from the corresponding `re` pattern in
the sources, including the greedy/backtracking behaviour of the quantifiers
where it is observable. -/

/-- The regex fragment `\s+.+$` matched against the remainder of a single line
(which contains no newline): at least one whitespace character followed by at
least one further character.  After backtracking of the greedy `\s+`, `.` may
itself match a whitespace character, so the fragment succeeds exactly when the
remainder starts with whitespace and has length at least two. -/
def wsThenRest (r : List Char) : Bool :=
  match r with
  | c1 :: _ :: _ => pyWs c1
  | _ => false

/-- `HEADING_PATTERN = ^(#{1,6})\s+(.+)$` applied to one line via `re.match`.
Returns the heading level and capture group 2.  When the text after the hashes
is entirely whitespace, the greedy `\s+` backtracks one character and group 2
is that final whitespace character. -/
def headingMatch (line : String) : Option (Nat × String) :=
  let cs := line.toList
  let n := (cs.takeWhile (· == '#')).length
  let rest := cs.drop n
  if 1 ≤ n ∧ n ≤ 6 ∧ wsThenRest rest then
    let t := rest.dropWhile pyWs
    some (n, (if t.isEmpty then [rest.getLastD ' '] else t).asString)
  else none

/-- `LIST_ITEM_PATTERN = ^[\s]*[-*+]\s+.+$|^[\s]*\d+\.\s+.+$` applied to one
line via `re.match`. -/
def listItemMatch (line : String) : Bool :=
  let cs := line.toList.dropWhile pyWs
  match cs with
  | [] => false
  | c :: rest =>
    if c = '-' ∨ c = '*' ∨ c = '+' then wsThenRest rest
    else
      let ds := cs.takeWhile Char.isDigit
      if ds.isEmpty then false
      else
        match cs.drop ds.length with
        | '.' :: r => wsThenRest r
        | _ => false

/-- `SECTION_PATTERN = ^##\s+(\d+\.\d+)\s+(.+)$` applied to one line via
`re.match`, as done by `ContentProcessor._split_into_sections`.  Returns
capture groups 1 (the dotted section number) and 2 (the raw title). -/
def sectionLineMatch (line : String) : Option (String × String) :=
  match line.toList with
  | '#' :: '#' :: rest =>
    let r1 := rest.dropWhile pyWs
    if rest.length = r1.length then none
    else
      let d1 := r1.takeWhile Char.isDigit
      if d1.isEmpty then none
      else
        match r1.drop d1.length with
        | '.' :: r2 =>
          let d2 := r2.takeWhile Char.isDigit
          if d2.isEmpty then none
          else
            let r3 := r2.drop d2.length
            if wsThenRest r3 then
              let t := r3.dropWhile pyWs
              some ((d1 ++ '.' :: d2).asString,
                    (if t.isEmpty then [r3.getLastD ' '] else t).asString)
            else none
        | _ => none
  | _ => none

/-- One step of `.+$` at a position inside multiline input: if the character at
the position exists and is not a newline, return the capture (the run up to the
next newline or the end) and the remaining input after it. -/
def takeLine (s : List Char) : Option (List Char × List Char) :=
  match s with
  | [] => none
  | c :: _ =>
    if c == '\n' then none
    else some (s.takeWhile (· != '\n'), s.dropWhile (· != '\n'))

/-- Backtracking loop for a greedy whitespace run followed by `(.+)$`: try the
run length `i` first, then shorter runs. -/
def tailGroupAux (r : List Char) : Nat → Option (List Char × List Char)
  | 0 => takeLine r
  | i+1 =>
    match takeLine (r.drop (i+1)) with
    | some g => some g
    | none => tailGroupAux r i

/-- The regex fragment `\s*(.+)$` under `re.MULTILINE`: the greedy `\s*` first
consumes the maximal whitespace run (which may cross line breaks) and
backtracks until `.+` can match at least one non-newline character ending at a
line end. -/
def tailGroup (r : List Char) : Option (List Char × List Char) :=
  tailGroupAux r (r.takeWhile pyWs).length

/-- The regex fragment `\s+(.+)$` under `re.MULTILINE`: as `tailGroup`, but the
whitespace run must be non-empty. -/
def wsTailGroupAux (r : List Char) : Nat → Option (List Char × List Char)
  | 0 => none
  | i+1 =>
    match takeLine (r.drop (i+1)) with
    | some g => some g
    | none => wsTailGroupAux r i

/-- See `wsTailGroupAux`. -/
def wsTailGroup (r : List Char) : Option (List Char × List Char) :=
  wsTailGroupAux r (r.takeWhile pyWs).length

/-- The literal `Kafli` under `re.IGNORECASE`. -/
def matchKafli (cs : List Char) : Option (List Char) :=
  match cs with
  | k :: a :: f :: l :: i :: rest =>
    if k.toLower = 'k' ∧ a.toLower = 'a' ∧ f.toLower = 'f' ∧ l.toLower = 'l' ∧
       i.toLower = 'i'
    then some rest else none
  | _ => none

/-- `CHAPTER_PATTERN = ^#\s+Kafli\s+(\d+):\s*(.+)$` (`re.MULTILINE` and
`re.IGNORECASE`) tried at one position where `^` holds.  The `\s` classes may
cross line breaks.  Returns `int(group(1))` and the raw capture group 2. -/
def chapterTryAt (cs : List Char) : Option (Nat × String) :=
  match cs with
  | '#' :: rest =>
    let r1 := rest.dropWhile pyWs
    if rest.length = r1.length then none
    else
      match matchKafli r1 with
      | none => none
      | some r2 =>
        let r3 := r2.dropWhile pyWs
        if r2.length = r3.length then none
        else
          let ds := r3.takeWhile Char.isDigit
          if ds.isEmpty then none
          else
            match r3.drop ds.length with
            | ':' :: r4 =>
              match tailGroup r4 with
              | some g => some (digitsToNat ds, g.1.asString)
              | none => none
            | _ => none
  | _ => none

/-- `CHAPTER_PATTERN.search(content)`: scan left to right; a match can only
start where `^` holds (start of input or just after a newline). -/
def chapterSearchAux : List Char → Bool → Option (Nat × String)
  | [], lineStart => if lineStart then chapterTryAt [] else none
  | c :: rest, lineStart =>
    match (if lineStart then chapterTryAt (c :: rest) else none) with
    | some r => some r
    | none => chapterSearchAux rest (c == '\n')

/-- See `chapterSearchAux`. -/
def chapterSearch (content : String) : Option (Nat × String) :=
  chapterSearchAux content.toList true

/-- `ContentProcessor._extract_chapter_info`: returns the chapter number and
the stripped chapter title of the first chapter-heading match, if any. -/
def extractChapterInfo (content : String) : Option (Nat × String) :=
  (chapterSearch content).map (fun p => (p.1, pyStrip p.2))

/-! ## `content_processor.py`: data model and Structural Parser -/

/-- `ContentType`. -/
inductive ContentType where
  | PARAGRAPH | HEADING | LIST | EQUATION | CODE | IMAGE
deriving DecidableEq

/-- `ContentBlock` (dataclass fields). -/
structure ContentBlock where
  type : ContentType
  content : String
  level : Option Nat
  word_count : Nat
deriving DecidableEq

/-- `ContentBlock.__post_init__`: a `word_count` of 0 is treated as unset and
recomputed as `len(self.content.split())`. -/
def mkContentBlock (t : ContentType) (content : String) (level : Option Nat)
    (wc : Nat) : ContentBlock :=
  ⟨t, content, level, if wc = 0 then (pyWords content).length else wc⟩

/-- Code-fence collection loop in `_parse_content_blocks`: collect lines up to
and including the closing fence (or to the end of input if unterminated);
returns the collected lines and the remaining input. -/
def takeUntilFence : List String → List String × List String
  | [] => ([], [])
  | l :: rest =>
    if pyStartsWith (pyStrip l) "```" then ([l], rest)
    else
      let p := takeUntilFence rest
      (l :: p.1, p.2)

/-- List-continuation collection loop in `_parse_content_blocks`. -/
def collectList : List String → List String × List String
  | [] => ([], [])
  | next :: rest =>
    if listItemMatch next ||
       (pyStrip next != "" && (pyStartsWith next " " || pyStartsWith next "\t")) then
      let p := collectList rest
      (next :: p.1, p.2)
    else if pyStrip next == "" then
      let p := collectList rest
      (next :: p.1, p.2)
    else ([], next :: rest)

/-- Multi-line equation collection loop in `_parse_content_blocks`: collect
lines up to and including the next line containing `$$`. -/
def takeUntilDollars : List String → List String × List String
  | [] => ([], [])
  | l :: rest =>
    if hasSub l "$$" then ([l], rest)
    else
      let p := takeUntilDollars rest
      (l :: p.1, p.2)

/-- The paragraph-terminating condition in `_parse_content_blocks`. -/
def paraBreak (l : String) : Bool :=
  pyStrip l == "" || (headingMatch l).isSome || listItemMatch l ||
  pyStartsWith (pyStrip l) "```" || hasSub l "$$"

/-- Paragraph collection loop in `_parse_content_blocks`. -/
def collectPara : List String → List String × List String
  | [] => ([], [])
  | next :: rest =>
    if paraBreak next then ([], next :: rest)
    else
      let p := collectPara rest
      (next :: p.1, p.2)

/-- The main `while` loop of `ContentProcessor._parse_content_blocks`, with a
fuel argument standing for the loop counter (every iteration consumes at least
one line, so one unit of fuel per input line is enough). -/
def parseBlocksAux : Nat → List String → List ContentBlock
  | 0, _ => []
  | _, [] => []
  | fuel+1, line :: rest =>
    if pyStrip line == "" then parseBlocksAux fuel rest
    else
      match headingMatch line with
      | some g =>
        mkContentBlock .HEADING line (some g.1) (pyWords g.2).length ::
          parseBlocksAux fuel rest
      | none =>
        if pyStartsWith (pyStrip line) "```" then
          let p := takeUntilFence rest
          mkContentBlock .CODE (pyJoin "\n" (line :: p.1)) none 0 ::
            parseBlocksAux fuel p.2
        else if listItemMatch line then
          let p := collectList rest
          mkContentBlock .LIST (pyJoin "\n" (line :: p.1)) none 0 ::
            parseBlocksAux fuel p.2
        else if hasSub line "$$" ||
                (pyStartsWith (pyStrip line) "$" && pyEndsWith (pyStrip line) "$") then
          if hasSub line "$$" && countSub line "$$" == 1 then
            let p := takeUntilDollars rest
            mkContentBlock .EQUATION (pyJoin "\n" (line :: p.1)) none 0 ::
              parseBlocksAux fuel p.2
          else
            mkContentBlock .EQUATION line none 0 :: parseBlocksAux fuel rest
        else
          let p := collectPara rest
          mkContentBlock .PARAGRAPH (pyJoin "\n" (line :: p.1)) none 0 ::
            parseBlocksAux fuel p.2

/-- `ContentProcessor._parse_content_blocks`. -/
def parseContentBlocks (content : String) : List ContentBlock :=
  parseBlocksAux (pyLines content).length (pyLines content)

/-! ## `content_processor.py`: Chunk Assembler -/

/-- `ContentProcessor.MIN_CHUNK_SIZE`. -/
def MIN_CHUNK_SIZE : Nat := 200
/-- `ContentProcessor.TARGET_MIN_SIZE`. -/
def TARGET_MIN_SIZE : Nat := 400
/-- `ContentProcessor.TARGET_MAX_SIZE`. -/
def TARGET_MAX_SIZE : Nat := 600
/-- `ContentProcessor.MAX_CHUNK_SIZE`. -/
def MAX_CHUNK_SIZE : Nat := 1000

/-- The loop state of `ContentProcessor._group_blocks_into_chunks`: the closed
chunk groups, the current group, and the running word count. -/
structure GroupState where
  chunks : List (List ContentBlock)
  current : List ContentBlock
  words : Nat
deriving DecidableEq

/-- One iteration of the `for block in blocks` loop of
`ContentProcessor._group_blocks_into_chunks`. -/
def groupStep (st : GroupState) (b : ContentBlock) : GroupState :=
  if b.type = .HEADING ∧ b.level = some 2 then st
  else
    let w := b.word_count
    if b.type = .CODE ∨ b.type = .EQUATION ∨ b.type = .LIST then
      if st.current ≠ [] ∧ MAX_CHUNK_SIZE < st.words + w then
        ⟨st.chunks ++ [st.current], [b], w⟩
      else
        ⟨st.chunks, st.current ++ [b], st.words + w⟩
    else
      if TARGET_MIN_SIZE ≤ st.words ∧ TARGET_MAX_SIZE < st.words + w then
        ⟨st.chunks ++ [st.current], [b], w⟩
      else
        if MAX_CHUNK_SIZE ≤ st.words + w then
          ⟨st.chunks ++ [st.current ++ [b]], [], 0⟩
        else
          ⟨st.chunks, st.current ++ [b], st.words + w⟩

/-- `ContentProcessor._group_blocks_into_chunks`. -/
def groupBlocksIntoChunks (blocks : List ContentBlock) : List (List ContentBlock) :=
  let st := blocks.foldl groupStep ⟨[], [], 0⟩
  if st.current ≠ [] then st.chunks ++ [st.current] else st.chunks

/-! ## `content_processor.py`: sections, metadata and `process_file` -/

/-- `ChunkMetadata` (dataclass fields). -/
structure ChunkMetadata where
  chapter_number : Nat
  section_number : String
  chapter_title : String
  section_title : String
  chunk_index : Nat
  word_count : Nat
  language : String
deriving DecidableEq

/-- `ProcessedChunk`. -/
structure ProcessedChunk where
  content : String
  metadata : ChunkMetadata
deriving DecidableEq

/-- A closed section dict as built by `ContentProcessor._split_into_sections`
(keys `section_number`, `section_title`, `header`, `content`). -/
structure SectionD where
  section_number : String
  section_title : String
  header : String
  content : String
deriving DecidableEq

/-- The in-progress section of `_split_into_sections` before its `content` key
is set: the collected content lines are still a list. -/
structure OpenSection where
  section_number : String
  section_title : String
  header : String
  contentLines : List String
deriving DecidableEq

/-- Setting the `content` key when a section is closed. -/
def closeSection (s : OpenSection) : SectionD :=
  ⟨s.section_number, s.section_title, s.header, pyJoin "\n" s.contentLines⟩

/-- The `for line in lines` loop of `ContentProcessor._split_into_sections`:
lines seen before the first section header are dropped; each section-header
line closes the previous section (if any) and opens a new one. -/
def splitSectionsAux : List String → Option OpenSection → List SectionD → List SectionD
  | [], cur, acc =>
    match cur with
    | none => acc
    | some c => acc ++ [closeSection c]
  | line :: rest, cur, acc =>
    match sectionLineMatch line with
    | some g =>
      let acc' := match cur with
        | none => acc
        | some c => acc ++ [closeSection c]
      splitSectionsAux rest (some ⟨g.1, pyStrip g.2, line, [line]⟩) acc'
    | none =>
      match cur with
      | none => splitSectionsAux rest none acc
      | some c =>
        splitSectionsAux rest (some { c with contentLines := c.contentLines ++ [line] }) acc

/-- `ContentProcessor._split_into_sections`. -/
def splitIntoSections (content : String) : List SectionD :=
  splitSectionsAux (pyLines content) none []

/-- `ContentProcessor._render_chunk`. -/
def renderChunk (blocks : List ContentBlock) (sectionHeader : String) : String :=
  pyStrip (pyJoin "\n" (sectionHeader :: "" :: blocks.flatMap (fun b => [b.content, ""])))

/-- `ContentProcessor._process_section` for a section of the current chapter.
The processor's `current_chapter_number`/`current_chapter_title` instance
fields, which `process_file` sets before the section loop, are passed as
explicit arguments. -/
def processSection (chapterNumber : Nat) (chapterTitle : String) (sec : SectionD)
    (startIndex : Nat) : List ProcessedChunk :=
  let blocks := parseContentBlocks sec.content
  let groups := groupBlocksIntoChunks blocks
  groups.enum.map (fun p =>
    { content := renderChunk p.2 sec.header
      metadata :=
        { chapter_number := chapterNumber
          section_number := sec.section_number
          chapter_title := chapterTitle
          section_title := sec.section_title
          chunk_index := startIndex + p.1
          word_count := (p.2.map (fun b => b.word_count)).sum
          language := "is" } })

/-- `ContentProcessor.process_file`.  The UTF-8 encoding validation always
succeeds on the modelled domain (see the primitives section); a missing
chapter heading raises `ValueError`, modelled as `Except.error`. -/
def processFile (content : String) : Except String (List ProcessedChunk) :=
  match extractChapterInfo content with
  | none => .error "Could not extract chapter information"
  | some info =>
    let sections := splitIntoSections content
    let res := sections.foldl
      (fun (acc : List ProcessedChunk × Nat) sec =>
        let cks := processSection info.1 info.2 sec acc.2
        (acc.1 ++ cks, acc.2 + cks.length))
      ([], 0)
    .ok res.1

/-! ## `batch_ingest.py` and `ingest.py`: persisted chunk identifiers -/

/-- The identifier built for one chunk in `BatchIngestor.store_chunks`:
`f"ch{..chapter_number}_sec{..section_number}_chunk{..chunk_index}"`. -/
def batchChunkId (c : ProcessedChunk) : String :=
  "ch" ++ toString c.metadata.chapter_number ++ "_sec" ++ c.metadata.section_number ++
    "_chunk" ++ toString c.metadata.chunk_index

/-- The id list built for one batch inside `BatchIngestor.store_chunks`. -/
def storeChunksBatchIds (batch : List ProcessedChunk) : List String :=
  batch.map batchChunkId

/-- The batch decomposition `chunks[i:i+batch_size]` over
`i in range(0, len(chunks), batch_size)` from `BatchIngestor.store_chunks`
(a zero step makes `range` raise in Python and is outside the domain; the
fuel argument bounds the loop as in `pySplitOn`). -/
def batchesAux (bs : Nat) : Nat → List ProcessedChunk → List (List ProcessedChunk)
  | 0, _ => []
  | fuel+1, l => if l.isEmpty then [] else l.take bs :: batchesAux bs fuel (l.drop bs)

/-- See `batchesAux`. -/
def storeChunksBatches (chunks : List ProcessedChunk) (batchSize : Nat) :
    List (List ProcessedChunk) :=
  batchesAux batchSize (chunks.length + 1) chunks

/-- All identifiers persisted for a chunk list by `BatchIngestor.store_chunks`,
batch by batch in order. -/
def storeChunksIds (chunks : List ProcessedChunk) (batchSize : Nat) : List String :=
  ((storeChunksBatches chunks batchSize).map storeChunksBatchIds).flatten

/-- A chunk dict produced by `ContentChunker._create_chunk` in `ingest.py`.
The metadata key `section` is rendered as `sec` (a Lean keyword). -/
structure IngestChunk where
  text : String
  chapter : String
  sec : String
  title : String
  filename : String
  word_count : Nat
deriving DecidableEq

/-- The identifier list persisted by `ContentIngester.ingest_all`:
`ids = [f"chunk_{i}" for i in range(len(all_chunks))]`. -/
def ingestAllIds (allChunks : List IngestChunk) : List String :=
  (List.range allChunks.length).map (fun i => "chunk_" ++ toString i)

/-! ## `rag_pipeline.py` and `llm_client.py`

The vector store, embedding service and Anthropic API are external
collaborators; their outcomes enter the model as arguments.  Similarity
scores are floating-point values handled opaquely by the sources, so they
appear as a type parameter `δ`.  Wall-clock metadata (timestamps, response
times, the retry backoff delay of `time.sleep(2)`) is not modelled. -/

/-- A ChromaDB metadata record as read back at query time; `.get` of the keys
used by `generate_answer` with default `'N/A'` is modelled by `Option`.  The
key `section` is rendered as `sec` (a Lean keyword). -/
structure RagMeta where
  chapter : Option String
  sec : Option String
  title : Option String
deriving DecidableEq

/-- The empty metadata dict `{}`. -/
def emptyRagMeta : RagMeta := ⟨none, none, none⟩

/-- The raw ChromaDB search-result dict (keys `documents`, `metadatas`,
`distances`, `ids`; a missing key is `none`). -/
structure SearchResults (δ : Type) where
  documents : Option (List (List String))
  metadatas : Option (List (List RagMeta))
  distances : Option (List (List δ))
  ids : Option (List (List String))
deriving DecidableEq

/-- A formatted chunk as built by `RAGPipeline._format_search_results`. -/
structure RagChunk (δ : Type) where
  document : String
  metadata : RagMeta
  distance : Option δ
  id : Option String
deriving DecidableEq

/-- `RAGPipeline._format_search_results`.  `not results` and
`not results.get('documents')` are true when the value is `None` or an empty
list.  Indexing `[0]` on a present but empty `metadatas`/`distances`/`ids`
outer list would raise `IndexError` in Python; the collaborator contract
(aligned per-query lists) keeps that outside the modelled domain, and the
model reads the empty list there. -/
def formatSearchResults {δ : Type} (results : Option (SearchResults δ)) :
    List (RagChunk δ) :=
  match results with
  | none => []
  | some r =>
    match r.documents with
    | none => []
    | some [] => []
    | some (docs :: _) =>
      let ms := (r.metadatas.getD [[]]).headD []
      let ds := (r.distances.getD [[]]).headD []
      let idl := (r.ids.getD [[]]).headD []
      docs.enum.map (fun p =>
        { document := p.2
          metadata := (ms.get? p.1).getD emptyRagMeta
          distance := ds.get? p.1
          id := idl.get? p.1 })

/-- A citation dict built by `ClaudeClient.generate_answer`.  The key
`section` is rendered as `sec`. -/
structure Citation where
  chapter : String
  sec : String
  title : String
  text_preview : String
deriving DecidableEq

/-- `document[:100] + '...' if len(document) > 100 else document`. -/
def textPreview (document : String) : String :=
  if 100 < document.length then (document.toList.take 100).asString ++ "..." else document

/-- One citation from one context chunk in `generate_answer`. -/
def mkCitation {δ : Type} (chunk : RagChunk δ) : Citation :=
  { chapter := chunk.metadata.chapter.getD "N/A"
    sec := chunk.metadata.sec.getD "N/A"
    title := chunk.metadata.title.getD "N/A"
    text_preview := textPreview chunk.document }

/-- The fixed model name of `ClaudeClient`. -/
def claudeModelName : String := "claude-sonnet-4-20250514"

/-- The fields of `response.usage` read by `generate_answer`. -/
structure ApiUsage where
  input_tokens : Nat
  output_tokens : Nat
deriving DecidableEq

/-- The part of an Anthropic API response read by `generate_answer`
(`response.content[0].text` and `response.usage`). -/
structure ApiResponse where
  text : String
  usage : ApiUsage
deriving DecidableEq

/-- The `tokens_used` dict of the `generate_answer` result. -/
structure TokensUsed where
  input : Nat
  output : Nat
  total : Nat
deriving DecidableEq

/-- The dict returned by `ClaudeClient.generate_answer`. -/
structure GenAnswer where
  answer : String
  citations : List Citation
  modelName : String
  tokens_used : TokensUsed
deriving DecidableEq

/-- One entry of `context_parts` in `generate_answer` (`i` is 1-based). -/
def contextPart {δ : Type} (i : Nat) (chunk : RagChunk δ) : String :=
  "[Heimild " ++ toString i ++ " - Kafli " ++ chunk.metadata.chapter.getD "N/A" ++
    "." ++ chunk.metadata.sec.getD "N/A" ++ ": " ++ chunk.metadata.title.getD "N/A" ++
    "]\n" ++ chunk.document ++ "\n"

/-- `context_text = "\n---\n".join(context_parts)` over
`enumerate(chunks_to_use, 1)`. -/
def buildContextText {δ : Type} (used : List (RagChunk δ)) : String :=
  pyJoin "\n---\n" (used.enum.map (fun p => contextPart (p.1 + 1) p.2))

/-- The user prompt f-string of `generate_answer`. -/
def userPrompt (question contextText : String) : String :=
  "Byggðu á eftirfarandi heimildum til að svara spurningunni.\n\nHEIMILDIR:\n" ++
    contextText ++ "\n\nSPURNING: " ++ question ++
    "\n\nSvaraðu á íslensku og vísa í heimildir með [Kafli X.Y: Titill] þegar við á."

/-- The result dict built from one successful API response. -/
def buildGenAnswer (r : ApiResponse) (citations : List Citation) : GenAnswer :=
  ⟨r.text, citations, claudeModelName,
   ⟨r.usage.input_tokens, r.usage.output_tokens,
    r.usage.input_tokens + r.usage.output_tokens⟩⟩

/-- `ClaudeClient.generate_answer`.  The API collaborator is a function from
the attempt number (0 or 1) and the user prompt to an outcome; the returned
`Nat` counts the API calls made.  An empty question raises `ValueError`; an
exception on the first attempt triggers exactly one retry (after a fixed
`time.sleep(2)` backoff); an exception on the retry propagates. -/
def generateAnswer {δ : Type} (question : String) (contextChunks : List (RagChunk δ))
    (maxChunks : Nat) (api : Nat → String → Except String ApiResponse) :
    Except String GenAnswer × Nat :=
  if question = "" then (.error "Question cannot be empty", 0)
  else
    let chunksToUse := contextChunks.take maxChunks
    let citations := chunksToUse.map mkCitation
    let prompt := userPrompt question (buildContextText chunksToUse)
    match api 0 prompt with
    | .ok r => (.ok (buildGenAnswer r citations), 1)
    | .error _ =>
      match api 1 prompt with
      | .ok r => (.ok (buildGenAnswer r citations), 2)
      | .error e => (.error e, 2)

/-- The fixed no-material answer of `RAGPipeline.ask`. -/
def noMaterialAnswer : String :=
  "Því miður fann ég engin viðeigandi gögn til að svara þessari spurningu. Vinsamlegast reyndu að orða spurninguna öðruvísi eða spyrðu um annað efni."

/-- The part of the `RAGPipeline.ask` response dict that is not wall-clock
metadata. -/
structure AskResponse where
  answer : String
  citations : List Citation
  chunks_found : Nat
deriving DecidableEq

/-- `RAGPipeline.ask`: the vector-store search outcome is passed in as the
collaborator's raw result, the generation collaborator as in
`generateAnswer`.  The returned `Nat` counts invocations of the generation
collaborator (`self.llm_client.generate_answer`); exceptions propagate. -/
def ask {δ : Type} (question : String) (searchResults : Option (SearchResults δ))
    (maxContextChunks : Nat) (api : Nat → String → Except String ApiResponse) :
    Except String AskResponse × Nat :=
  if question = "" ∨ pyStrip question = "" then (.error "Question cannot be empty", 0)
  else
    let chunks := formatSearchResults searchResults
    if chunks.isEmpty then (.ok ⟨noMaterialAnswer, [], 0⟩, 0)
    else
      match generateAnswer question chunks maxContextChunks api with
      | (.ok g, _) => (.ok ⟨g.answer, g.citations, chunks.length⟩, 1)
      | (.error e, _) => (.error e, 1)

/-! ## `chapter_validator.py` -/

/-- `ChapterValidator.MIN_CONTENT_LENGTH`. -/
def MIN_CONTENT_LENGTH : Nat := 100
/-- `ChapterValidator.MIN_SECTIONS`. -/
def MIN_SECTIONS : Nat := 1
/-- `ChapterValidator.MAX_SECTIONS`. -/
def MAX_SECTIONS : Nat := 50

/-- `CORRUPTED_CHAR_PATTERN = [\x00-\x08\x0B\x0C\x0E-\x1F\x7F]`. -/
def corruptedChar (c : Char) : Bool :=
  c.toNat ≤ 0x08 || c.toNat == 0x0b || c.toNat == 0x0c ||
  (0x0e ≤ c.toNat && c.toNat ≤ 0x1f) || c.toNat == 0x7f

/-- `ChapterValidator._check_corrupted_characters`: appended errors. -/
def checkCorruptedChars (content : String) : List String :=
  let n := (content.toList.filter corruptedChar).length
  if 0 < n then ["Found " ++ toString n ++ " corrupted control characters in content"]
  else []

/-- `SECTION_PATTERN` tried at one `^` position under `re.MULTILINE` (the
whitespace classes may cross line breaks); returns the capture groups and the
remaining input after the match, for use by `re.findall`. -/
def sectionTryAtMl (cs : List Char) : Option ((String × String) × List Char) :=
  match cs with
  | '#' :: '#' :: rest =>
    let r1 := rest.dropWhile pyWs
    if rest.length = r1.length then none
    else
      let d1 := r1.takeWhile Char.isDigit
      if d1.isEmpty then none
      else
        match r1.drop d1.length with
        | '.' :: r2 =>
          let d2 := r2.takeWhile Char.isDigit
          if d2.isEmpty then none
          else
            match wsTailGroup (r2.drop d2.length) with
            | some g => some (((d1 ++ '.' :: d2).asString, g.1.asString), g.2)
            | none => none
        | _ => none
  | _ => none

/-- `SECTION_PATTERN.findall(content)`: scan left to right, resuming after
each match (a match never ends in a newline, so `^` does not hold at the
resume position).  One unit of fuel per character suffices. -/
def sectionFindAllAux : Nat → List Char → Bool → List (String × String)
  | 0, _, _ => []
  | fuel+1, cs, lineStart =>
    match (if lineStart then sectionTryAtMl cs else none) with
    | some g => g.1 :: sectionFindAllAux fuel g.2 false
    | none =>
      match cs with
      | [] => []
      | c :: rest => sectionFindAllAux fuel rest (c == '\n')

/-- See `sectionFindAllAux`. -/
def sectionFindAll (content : String) : List (String × String) :=
  sectionFindAllAux (content.toList.length + 1) content.toList true

/-- `SUBSECTION_PATTERN = ^###\s+(.+)$` tried at one `^` position under
`re.MULTILINE`. -/
def subsectionTryAtMl (cs : List Char) : Option (String × List Char) :=
  match cs with
  | '#' :: '#' :: '#' :: rest =>
    match wsTailGroup rest with
    | some g => some (g.1.asString, g.2)
    | none => none
  | _ => none

/-- `SUBSECTION_PATTERN.findall(content)`. -/
def subsectionFindAllAux : Nat → List Char → Bool → List String
  | 0, _, _ => []
  | fuel+1, cs, lineStart =>
    match (if lineStart then subsectionTryAtMl cs else none) with
    | some g => g.1 :: subsectionFindAllAux fuel g.2 false
    | none =>
      match cs with
      | [] => []
      | c :: rest => subsectionFindAllAux fuel rest (c == '\n')

/-- See `subsectionFindAllAux`. -/
def subsectionFindAll (content : String) : List String :=
  subsectionFindAllAux (content.toList.length + 1) content.toList true

/-- `CHAPTER_PATTERN.match(line)` on a single line, as a Bool. -/
def chapterLineMatch (line : String) : Bool := (chapterTryAt line.toList).isSome

/-- `ChapterValidator._validate_heading_hierarchy`: appended warnings. -/
def headingHierarchyWarnings (lines : List String) : List String :=
  (lines.enum.foldl
    (fun (acc : List String × Nat) p =>
      match headingMatch p.2 with
      | some g =>
        if 0 < acc.2 ∧ acc.2 + 1 < g.1 then
          (acc.1 ++ ["Line " ++ toString (p.1 + 1) ++ ": Heading hierarchy skip (h" ++
                     toString acc.2 ++ " -> h" ++ toString g.1 ++ ")"], g.1)
        else (acc.1, g.1)
      | none => acc)
    ([], 0)).1

/-- `ChapterValidator._validate_structure`: appended (errors, warnings). -/
def validateStructure (content : String) : List String × List String :=
  let lines := pyLines content
  let chapterErrors :=
    if (chapterSearch content).isNone then ["Missing chapter heading (# Kafli X: Title)"]
    else []
  let chapterWarnings :=
    if (chapterSearch content).isSome then
      match lines.find? (fun l => pyStartsWith (pyStrip l) "#") with
      | some firstHeading =>
        if chapterLineMatch firstHeading then []
        else ["First heading is not a chapter heading (# Kafli X: Title)"]
      | none => []
    else []
  let sections := sectionFindAll content
  let sectionErrors :=
    if sections.length < MIN_SECTIONS then
      ["Too few sections (" ++ toString sections.length ++ ", minimum " ++
       toString MIN_SECTIONS ++ ")"]
    else []
  let sectionWarnings :=
    if MIN_SECTIONS ≤ sections.length ∧ MAX_SECTIONS < sections.length then
      ["Many sections (" ++ toString sections.length ++ ", maximum " ++
       toString MAX_SECTIONS ++ ")"]
    else []
  (chapterErrors ++ sectionErrors,
   chapterWarnings ++ sectionWarnings ++ headingHierarchyWarnings lines)

/-- The `chapter_info` dict (absent keys are `none`; `dict` update keeps the
other keys). -/
structure ChapterInfo where
  chapter_number : Option Nat
  chapter_title : Option String
  section_count : Option Nat
  sections : Option (List (String × String))
  subsection_count : Option Nat
  word_count : Option Nat
  line_count : Option Nat
  icelandic_char_count : Option Nat
  icelandic_chemistry_terms_found : Option (List String)
deriving DecidableEq

/-- The empty `chapter_info`. -/
def emptyChapterInfo : ChapterInfo :=
  ⟨none, none, none, none, none, none, none, none, none⟩

/-- `ChapterValidator._extract_metadata`. -/
def extractMetadata (ci : ChapterInfo) (content : String) : ChapterInfo :=
  let ci1 :=
    match chapterSearch content with
    | some p => { ci with chapter_number := some p.1, chapter_title := some (pyStrip p.2) }
    | none => ci
  let sections := sectionFindAll content
  { ci1 with
    section_count := some sections.length
    sections := some (sections.map (fun s => (s.1, pyStrip s.2)))
    subsection_count := some (subsectionFindAll content).length
    word_count := some (pyWords content).length
    line_count := some (pyLines content).length }

/-- `ChapterValidator._check_required_elements`: appended (errors, warnings). -/
def checkRequiredElements (content : String) : List String × List String :=
  let paragraphs := (pyLines content).filter
    (fun l => pyStrip l != "" && !(pyStartsWith (pyStrip l) "#"))
  let errors := if paragraphs.isEmpty then ["No paragraph content found"] else []
  let sections := pySplitOn content "##"
  let warnings := (sections.drop 1).enum.flatMap (fun p =>
    let i := p.1 + 1
    let sectionContent := pyStrip (pyJoin "\n" ((pySplitOn p.2 "\n").drop 1))
    if sectionContent = "" then ["Section " ++ toString i ++ " appears to be empty"]
    else if sectionContent.length < 50 then
      ["Section " ++ toString i ++ " has very little content (" ++
       toString sectionContent.length ++ " chars)"]
    else [])
  (errors, warnings)

/-- `ChapterValidator.ICELANDIC_CHARS`. -/
def icelandicChars : List Char := "áéíóúýþæöðÁÉÍÓÚÝÞÆÖÐ".toList

/-- `str.lower()` restricted to ASCII letters and the Icelandic letters
occurring in the sources. -/
def pyLowerChar (c : Char) : Char :=
  if c = 'Á' then 'á' else if c = 'É' then 'é' else if c = 'Í' then 'í'
  else if c = 'Ó' then 'ó' else if c = 'Ú' then 'ú' else if c = 'Ý' then 'ý'
  else if c = 'Þ' then 'þ' else if c = 'Æ' then 'æ' else if c = 'Ö' then 'ö'
  else if c = 'Ð' then 'ð' else c.toLower

/-- `content.lower()`. -/
def pyLower (s : String) : String := (s.toList.map pyLowerChar).asString

/-- The fixed Icelandic chemistry term list of
`_validate_icelandic_content`. -/
def icelandicChemistryTerms : List String :=
  ["atóm", "efni", "efnafræði", "rafeind", "róteind", "nifteind",
   "efnatengi", "sameind", "jón", "lofttegund", "vökvi", "fast ástand"]

/-- `ChapterValidator._validate_icelandic_content`: appended warnings and the
updated `chapter_info`. -/
def validateIcelandicContent (ci : ChapterInfo) (content : String) :
    List String × ChapterInfo :=
  let charCount := (content.toList.filter (fun c => icelandicChars.contains c)).length
  let w1 :=
    if charCount = 0 then
      ["No Icelandic special characters found - content might not be in Icelandic"]
    else []
  let found := icelandicChemistryTerms.filter (fun t => hasSub (pyLower content) t)
  let w2 :=
    if found.isEmpty then
      ["No common Icelandic chemistry terms found - verify content is chemistry-related"]
    else []
  (w1 ++ w2,
   { ci with icelandic_char_count := some charCount
             icelandic_chemistry_terms_found := some found })

/-- The blank-line-group scan of `_check_formatting_issues`: groups of more
than 3 consecutive blank lines closed by a later non-blank line (a trailing
blank run is never flushed). -/
def blankLineGroups (lines : List String) : Nat :=
  (lines.foldl
    (fun (acc : Nat × Nat) l =>
      if pyStrip l = "" then (acc.1, acc.2 + 1)
      else if 3 < acc.2 then (acc.1 + 1, 0) else (acc.1, 0))
    (0, 0)).1

/-- `re.match(r'^[\s]*([-*+])\s+', line)`: the bullet marker of a list line,
if any. -/
def bulletMarker (line : String) : Option Char :=
  match line.toList.dropWhile pyWs with
  | c :: d :: _ => if (c = '-' ∨ c = '*' ∨ c = '+') ∧ pyWs d then some c else none
  | _ => none

/-- Distinct elements in first-appearance order.  Python collects the markers
into a `set`, whose iteration order for the subsequent `', '.join` is
unspecified; the model fixes first-appearance order. -/
def distinctAux : List Char → List Char → List Char
  | seen, [] => seen.reverse
  | seen, c :: cs =>
    if seen.contains c then distinctAux seen cs else distinctAux (c :: seen) cs

/-- `ChapterValidator._check_formatting_issues`: appended warnings. -/
def checkFormattingIssues (content : String) : List String :=
  let lines := pyLines content
  let trailing := (lines.filter (fun l => l != "" && pyRstrip l != l)).length
  let w1 :=
    if 0 < trailing then
      ["Found trailing whitespace on " ++ toString trailing ++ " lines"]
    else []
  let groups := blankLineGroups lines
  let w2 :=
    if 0 < groups then
      ["Found " ++ toString groups ++ " groups of excessive blank lines (>3)"]
    else []
  let markers := distinctAux [] (lines.filterMap bulletMarker)
  let w3 :=
    if 1 < markers.length then
      ["Inconsistent list markers found: " ++
       pyJoin ", " (markers.map (fun c => [c].asString))]
    else []
  w1 ++ w2 ++ w3

/-- `ValidationResult` (the `chapter_info` echo). -/
structure ValidationResult where
  valid : Bool
  errors : List String
  warnings : List String
  chapter_info : ChapterInfo
deriving DecidableEq

/-- The mutable state of a `ChapterValidator` instance. -/
structure ValidatorState where
  errors : List String
  warnings : List String
  chapter_info : ChapterInfo
deriving DecidableEq

/-- A fresh `ChapterValidator()` (its `__init__` calls `reset`). -/
def initValidator : ValidatorState := ⟨[], [], emptyChapterInfo⟩

/-- `ChapterValidator.reset`. -/
def resetValidator (st : ValidatorState) : ValidatorState :=
  { st with errors := [], warnings := [], chapter_info := emptyChapterInfo }

/-- `ChapterValidator._build_result`: `valid` is true iff the accumulated
error list is empty. -/
def buildResult (st : ValidatorState) : ValidationResult :=
  ⟨st.errors.isEmpty, st.errors, st.warnings, st.chapter_info⟩

/-- `ChapterValidator.validate_content`: each check appends to the instance's
`errors`/`warnings` (the UTF-8 encoding check `_validate_encoding` appends
nothing on the modelled domain), `_extract_metadata` and
`_validate_icelandic_content` update `chapter_info`, and `_build_result`
copies the accumulated state into the result.  `validate_content` itself
never calls `reset`. -/
def validateContent (st : ValidatorState) (content : String) :
    ValidationResult × ValidatorState :=
  if content = "" then
    let st' := { st with errors := st.errors ++ ["Content is empty"] }
    (buildResult st', st')
  else
    let e1 := checkCorruptedChars content
    let e2 :=
      if content.length < MIN_CONTENT_LENGTH then
        ["Content too short (" ++ toString content.length ++ " chars, minimum " ++
         toString MIN_CONTENT_LENGTH ++ ")"]
      else []
    let p3 := validateStructure content
    let ci1 := extractMetadata st.chapter_info content
    let p4 := checkRequiredElements content
    let p5 := validateIcelandicContent ci1 content
    let w6 := checkFormattingIssues content
    let st' : ValidatorState :=
      { errors := st.errors ++ e1 ++ e2 ++ p3.1 ++ p4.1
        warnings := st.warnings ++ p3.2 ++ p4.2 ++ p5.1 ++ w6
        chapter_info := p5.2 }
    (buildResult st', st')

/-! ## Sample inputs used by counterexamples and witnesses -/

/-- A section body containing one code block and one equation block. -/
def codeEqBody : String := "```\nx = 1\n```\n$$E = mc^2$$"

/-- A well-formed minimal chapter document accepted by the validator. -/
def sampleValidContent : String :=
  "# Kafli 1: Efnafræði\n\n## 1.1 Atóm og efni\n\nAtóm eru grunneiningar alls efnis og efnafræði fjallar um eiginleika þeirra."

/-- A two-section chapter document. -/
def sampleTwoSectionDoc : String :=
  "# Kafli 1: Efni\n\n## 1.1 Inngangur\n\nAtóm er grunneining efnis.\n\n## 1.2 Tengi\n\n- Samgilt tengi\n- Jónatengi\n\nDæmi um efnatengi er vatn."

/-- A chapter document without any section header line. -/
def sampleNoSectionDoc : String := "# Kafli 1: A\nbara texti án kafla-hluta"

/-- Paragraph and list blocks of given word counts (constructed through the
`ContentBlock` constructor, whose `__post_init__` keeps a non-zero
`word_count`). -/
def paraBlock300 : ContentBlock := mkContentBlock .PARAGRAPH "p" none 300
/-- See `paraBlock300`. -/
def paraBlock600 : ContentBlock := mkContentBlock .PARAGRAPH "p" none 600
/-- See `paraBlock300`. -/
def paraBlock700 : ContentBlock := mkContentBlock .PARAGRAPH "p" none 700
/-- See `paraBlock300`. -/
def listBlock400 : ContentBlock := mkContentBlock .LIST "l" none 400
/-- See `paraBlock300`. -/
def listBlock500 : ContentBlock := mkContentBlock .LIST "l" none 500

/-- A chunk dict as built by `ContentChunker._create_chunk` in `ingest.py`. -/
def demoIngestChunk : IngestChunk :=
  ⟨"Atóm er efni.", "1", "1", "Inngangur", "kafli_01.md", 3⟩

/-- The chunk list of `processFile sampleTwoSectionDoc` (used to discharge the
success hypothesis of the C7 theorem at a concrete document). -/
def sampleTwoSectionChunks : List ProcessedChunk :=
  (processFile sampleTwoSectionDoc).toOption.getD []

/-! ## Claim theorems -/

/-- C1: evaluating the Structural Parser on a section body with a code block
and an equation block shows their `word_count` fields are not 0.
`_parse_content_blocks` passes `word_count=0` for Code and Equation blocks
(its comments say they contribute no words), but `ContentBlock.__post_init__`
treats 0 as unset and recomputes `len(content.split())`, so the fence/equation
text is counted after all. -/
theorem c1_code_equation_word_count_not_zero :
    (parseContentBlocks codeEqBody).map (fun b => (b.type, b.word_count)) =
      [(ContentType.CODE, 5), (ContentType.EQUATION, 3)] ∧
    ∀ b ∈ parseContentBlocks codeEqBody, b.word_count ≠ 0 := by
  constructor
  · decide
  · decide

/-- C2 counterexample: two successive `validate_content` calls on one
validator (as `BatchIngestor.process_file` performs across files) carry the
first call's errors into the second call's result: the second content is
valid on a fresh validator, yet after a first failing pass the second result
is invalid and still reports the first pass's "Content is empty" error. -/
theorem c2_counterexample :
    (validateContent initValidator sampleValidContent).1.valid = true ∧
    (validateContent (validateContent initValidator "").2 sampleValidContent).1.valid
      = false ∧
    (validateContent (validateContent initValidator "").2 sampleValidContent).1.errors
      = ["Content is empty"] := by
  refine ⟨by decide, by decide, by decide⟩

/-- C2 (amended): `errors` and `warnings` are reset by `reset` — which
`validate_file` calls at the start of each pass but `validate_content` does
not: a pass on a reset validator equals a pass on a fresh validator, while a
`validate_content` pass on an arbitrary state appends its fresh findings
after whatever errors and warnings the state already carries (so successive
`validate_content` calls on one validator accumulate). -/
theorem c2_reset_and_accumulation (st : ValidatorState) (content : String) :
    validateContent (resetValidator st) content =
      validateContent initValidator content ∧
    (validateContent st content).1.errors =
      st.errors ++ (validateContent initValidator content).1.errors ∧
    (validateContent st content).1.warnings =
      st.warnings ++ (validateContent initValidator content).1.warnings := by
  refine ⟨rfl, ?_, ?_⟩ <;>
    by_cases h : content = "" <;>
      simp [validateContent, buildResult, initValidator, validateIcelandicContent, h]

/-- C3: when the chapter-heading pattern `# Kafli N: Title` finds no match in
the document, `process_file` raises (modelled as `Except.error`) and no
chunks are produced, regardless of the rest of the document. -/
theorem c3_missing_chapter_heading_raises (content : String)
    (h : extractChapterInfo content = none) :
    processFile content = .error "Could not extract chapter information" := by
  simp [processFile, h]

/-- Witness for C3 at a document with well-formed sections but no chapter
heading. -/
theorem c3_witness :
    extractChapterInfo "## 1.1 Grunnur\n\nAtóm er efni." = none ∧
    processFile "## 1.1 Grunnur\n\nAtóm er efni." =
      .error "Could not extract chapter information" :=
  ⟨by decide, c3_missing_chapter_heading_raises _ (by decide)⟩

/-- C4 counterexample: the ingestion path of `ingest.py`
(`ContentIngester.ingest_all`) persists positional identifiers `chunk_{i}`;
for a one-chunk ingestion the stored identifier is "chunk_0", not the
`ch{chapter}_sec{section}_chunk{index}` form the claim requires for every
persisted chunk. -/
theorem c4_counterexample :
    ingestAllIds [demoIngestChunk] = ["chunk_0"] ∧
    ingestAllIds [demoIngestChunk] ≠ ["ch1_sec1_chunk0"] := by
  refine ⟨by decide, by decide⟩

/-- C4 (amended): chunks persisted by the batch-ingestion path
(`BatchIngestor.store_chunks`) are identified, across all batches in order,
exactly by `ch{chapter_number}_sec{section_number}_chunk{chunk_index}` built
from each chunk's metadata; the simple ingestion script (`ingest.py`) instead
assigns positional identifiers that are independent of the chunks'
metadata. -/
theorem c4_batch_ids_exact (chunks : List ProcessedChunk) (batchSize : Nat)
    (h : 0 < batchSize) :
    storeChunksIds chunks batchSize = chunks.map batchChunkId ∧
    ∀ ics ics' : List IngestChunk, ics.length = ics'.length →
      ingestAllIds ics = ingestAllIds ics' := by
  constructor
  · have key : ∀ (fuel : Nat) (l : List ProcessedChunk), l.length ≤ fuel →
        (batchesAux batchSize fuel l).flatten = l := by
      intro fuel
      induction fuel with
      | zero =>
        intro l hl
        simp [batchesAux, List.length_eq_zero.mp (Nat.le_zero.mp hl)]
      | succ n ih =>
        intro l hl
        by_cases he : l.isEmpty
        · simp [batchesAux, he, List.isEmpty_iff.mp he]
        · have hdrop : (l.drop batchSize).length ≤ n := by
            rw [List.length_drop]
            have hpos : 0 < l.length := by
              cases l with
              | nil => simp at he
              | cons a t => simp
            omega
          simp [batchesAux, he, ih _ hdrop, List.take_append_drop]
    unfold storeChunksIds storeChunksBatchIds storeChunksBatches
    rw [← List.map_flatten, key (chunks.length + 1) chunks (Nat.le_succ _)]
  · intro ics ics' hlen
    unfold ingestAllIds
    rw [hlen]

/-- Witness for C4 (amended) at a concrete chunk list and batch size 2. -/
theorem c4_witness :
    0 < 2 ∧
    storeChunksIds
        [⟨"a", ⟨1, "1.1", "K", "S", 0, 10, "is"⟩⟩,
         ⟨"b", ⟨1, "1.1", "K", "S", 1, 10, "is"⟩⟩,
         ⟨"c", ⟨1, "1.2", "K", "T", 2, 10, "is"⟩⟩] 2 =
      ["ch1_sec1.1_chunk0", "ch1_sec1.1_chunk1", "ch1_sec1.2_chunk2"] :=
  ⟨by decide,
   by
    rw [(c4_batch_ids_exact
      [⟨"a", ⟨1, "1.1", "K", "S", 0, 10, "is"⟩⟩,
       ⟨"b", ⟨1, "1.1", "K", "S", 1, 10, "is"⟩⟩,
       ⟨"c", ⟨1, "1.2", "K", "T", 2, 10, "is"⟩⟩] 2 (by decide)).1]
    decide⟩

/-- C6 counterexample: an append of an atomic (List) block skips the
immediate close-at-maximum check of the Chunk Assembler: after processing
`[paragraph(600 words), list(400 words)]` the running word count has reached
`MAX_CHUNK_SIZE = 1000`, yet the current group is still open (non-empty) and
no group has been closed, where the claim requires the group to be closed
immediately with the next group starting empty. -/
theorem c6_counterexample :
    (List.foldl groupStep ⟨[], [], 0⟩ [paraBlock600, listBlock400]).words =
      MAX_CHUNK_SIZE ∧
    (List.foldl groupStep ⟨[], [], 0⟩ [paraBlock600, listBlock400]).current ≠ [] ∧
    (List.foldl groupStep ⟨[], [], 0⟩ [paraBlock600, listBlock400]).chunks = [] := by
  refine ⟨by decide, by decide, by decide⟩

/-- C6 (amended): the immediate close-at-`MAX_CHUNK_SIZE` check runs only
after the plain fall-through append of a non-atomic (paragraph or
non-section-heading) block: such an append that reaches `MAX_CHUNK_SIZE`
closes the group at once and the next group starts empty.  Appends of atomic
blocks, and appends that themselves start a new group, skip this check. -/
theorem c6_plain_append_closes_at_max (st : GroupState) (b : ContentBlock)
    (h1 : ¬(b.type = ContentType.HEADING ∧ b.level = some 2))
    (h2 : ¬(b.type = ContentType.CODE ∨ b.type = ContentType.EQUATION ∨
            b.type = ContentType.LIST))
    (h3 : ¬(TARGET_MIN_SIZE ≤ st.words ∧ TARGET_MAX_SIZE < st.words + b.word_count))
    (h4 : MAX_CHUNK_SIZE ≤ st.words + b.word_count) :
    groupStep st b = ⟨st.chunks ++ [st.current ++ [b]], [], 0⟩ := by
  simp [groupStep, h1, h2, h3, h4]

/-- Witness for C6 (amended): a 700-word paragraph appended to a 300-word
group closes it at exactly 1000 words. -/
theorem c6_witness :
    ¬(paraBlock700.type = ContentType.HEADING ∧ paraBlock700.level = some 2) ∧
    MAX_CHUNK_SIZE ≤ 300 + paraBlock700.word_count ∧
    groupStep ⟨[], [paraBlock300], 300⟩ paraBlock700 =
      ⟨[[paraBlock300, paraBlock700]], [], 0⟩ :=
  ⟨by decide, by decide,
   c6_plain_append_closes_at_max ⟨[], [paraBlock300], 300⟩ paraBlock700
     (by decide) (by decide) (by decide) (by decide)⟩

/-- C8: an `ask` call whose retrieval step yields zero formatted chunks
returns the fixed Icelandic no-material answer with an empty citation list
and performs zero generation-collaborator invocations. -/
theorem c8_empty_retrieval_short_circuit {δ : Type} (question : String)
    (results : Option (SearchResults δ)) (maxChunks : Nat)
    (api : Nat → String → Except String ApiResponse)
    (hq : ¬(question = "" ∨ pyStrip question = ""))
    (h : formatSearchResults results = []) :
    ask question results maxChunks api = (.ok ⟨noMaterialAnswer, [], 0⟩, 0) := by
  simp [ask, hq, h]

/-- Witness for C8 at a concrete question, an empty store result, and a
generation collaborator that would fail if it were called. -/
theorem c8_witness :
    ¬(("Hvað er atóm?" : String) = "" ∨ pyStrip "Hvað er atóm?" = "") ∧
    formatSearchResults (none : Option (SearchResults Nat)) = [] ∧
    ask "Hvað er atóm?" (none : Option (SearchResults Nat)) 4
        (fun _ _ => .error "api down") = (.ok ⟨noMaterialAnswer, [], 0⟩, 0) :=
  ⟨by decide, by decide,
   c8_empty_retrieval_short_circuit "Hvað er atóm?" none 4
     (fun _ _ => .error "api down") (by decide) (by decide)⟩

/-- C9: per `generate_answer` invocation at most two API calls are ever made;
a first-attempt success means exactly one call; after a first-attempt
exception exactly one retry of the same request is issued, a successful retry
returns its response after two calls, and a failing retry propagates the
second error after two calls. -/
theorem c9_generation_retry_bounded {δ : Type} (question : String)
    (contextChunks : List (RagChunk δ)) (maxChunks : Nat)
    (api : Nat → String → Except String ApiResponse) (hq : question ≠ "") :
    (generateAnswer question contextChunks maxChunks api).2 ≤ 2 ∧
    (∀ r, api 0 (userPrompt question (buildContextText (contextChunks.take maxChunks)))
        = .ok r →
      generateAnswer question contextChunks maxChunks api =
        (.ok (buildGenAnswer r ((contextChunks.take maxChunks).map mkCitation)), 1)) ∧
    (∀ e, api 0 (userPrompt question (buildContextText (contextChunks.take maxChunks)))
        = .error e →
      (∀ r, api 1 (userPrompt question (buildContextText (contextChunks.take maxChunks)))
          = .ok r →
        generateAnswer question contextChunks maxChunks api =
          (.ok (buildGenAnswer r ((contextChunks.take maxChunks).map mkCitation)), 2)) ∧
      (∀ e2, api 1 (userPrompt question (buildContextText (contextChunks.take maxChunks)))
          = .error e2 →
        generateAnswer question contextChunks maxChunks api = (.error e2, 2))) := by
  refine ⟨?_, ?_, ?_⟩
  · rcases h0 : api 0 (userPrompt question (buildContextText (contextChunks.take maxChunks)))
      with e | r
    · rcases h1 : api 1 (userPrompt question (buildContextText (contextChunks.take maxChunks)))
        with e2 | r
      · simp [generateAnswer, hq, h0, h1]
      · simp [generateAnswer, hq, h0, h1]
    · simp [generateAnswer, hq, h0]
  · intro r h0
    simp [generateAnswer, hq, h0]
  · intro e h0
    constructor
    · intro r h1
      simp [generateAnswer, hq, h0, h1]
    · intro e2 h1
      simp [generateAnswer, hq, h0, h1]

/-- Appending one block to the assembler state extends the flattened content
(closed groups then the open group) by the block, unless the block is a
skipped section-level heading. -/
theorem groupStep_flatten (st : GroupState) (b : ContentBlock) :
    (groupStep st b).chunks.flatten ++ (groupStep st b).current =
      st.chunks.flatten ++ st.current ++
        (if b.type = ContentType.HEADING ∧ b.level = some 2 then [] else [b]) := by
  unfold groupStep
  by_cases h1 : b.type = ContentType.HEADING ∧ b.level = some 2
  · simp [h1]
  · by_cases h2 : b.type = ContentType.CODE ∨ b.type = ContentType.EQUATION ∨
        b.type = ContentType.LIST
    · by_cases h3 : st.current ≠ [] ∧ MAX_CHUNK_SIZE < st.words + b.word_count
      · simp [h1, h2, h3, List.flatten_append]
      · simp [h1, h2, h3]
    · by_cases h4 : TARGET_MIN_SIZE ≤ st.words ∧ TARGET_MAX_SIZE < st.words + b.word_count
      · simp [h1, h2, h4, List.flatten_append]
      · by_cases h5 : MAX_CHUNK_SIZE ≤ st.words + b.word_count
        · simp [h1, h2, h4, h5, List.flatten_append]
        · simp [h1, h2, h4, h5]

/-- Folding the assembler over a block sequence appends exactly the
non-skipped blocks to the flattened state. -/
theorem foldl_groupStep_flatten (blocks : List ContentBlock) (st : GroupState) :
    (blocks.foldl groupStep st).chunks.flatten ++ (blocks.foldl groupStep st).current =
      st.chunks.flatten ++ st.current ++
        blocks.filter
          (fun b => !decide (b.type = ContentType.HEADING ∧ b.level = some 2)) := by
  induction blocks generalizing st with
  | nil => simp
  | cons b bs ih =>
    rw [List.foldl_cons, ih, groupStep_flatten]
    by_cases h : b.type = ContentType.HEADING ∧ b.level = some 2
    · simp [h, List.filter_cons]
    · simp [h, List.filter_cons]
      rw [if_pos (not_and_or.mp h)]

/-- C5: every non-skipped block — in particular every Code, Equation or List
block — is placed whole into exactly one chunk group (the groups flatten back
to the non-skipped block sequence in order); an atomic block whose addition
would push the running word count over `MAX_CHUNK_SIZE` while the current
group is non-empty first closes the current group and starts a new group
containing just this block, and is otherwise appended to the current
group. -/
theorem c5_atomic_blocks_whole (blocks : List ContentBlock) (st : GroupState)
    (b : ContentBlock)
    (hb : b.type = ContentType.CODE ∨ b.type = ContentType.EQUATION ∨
          b.type = ContentType.LIST) :
    (groupBlocksIntoChunks blocks).flatten =
      blocks.filter
        (fun x => !decide (x.type = ContentType.HEADING ∧ x.level = some 2)) ∧
    (st.current ≠ [] → MAX_CHUNK_SIZE < st.words + b.word_count →
      groupStep st b = ⟨st.chunks ++ [st.current], [b], b.word_count⟩) ∧
    (¬(st.current ≠ [] ∧ MAX_CHUNK_SIZE < st.words + b.word_count) →
      groupStep st b = ⟨st.chunks, st.current ++ [b], st.words + b.word_count⟩) := by
  have hnotskip : ¬(b.type = ContentType.HEADING ∧ b.level = some 2) := by
    rcases hb with h | h | h <;> simp [h]
  refine ⟨?_, ?_, ?_⟩
  · have h := foldl_groupStep_flatten blocks ⟨[], [], 0⟩
    simp only [List.flatten_nil, List.nil_append] at h
    unfold groupBlocksIntoChunks
    by_cases hc : (blocks.foldl groupStep ⟨[], [], 0⟩).current = []
    · rw [if_neg (by simp [hc])]
      rw [← h, hc, List.append_nil]
    · rw [if_pos hc]
      rw [List.flatten_append, List.flatten_cons, List.flatten_nil, List.append_nil, h]
  · intro hne hover
    unfold groupStep
    rw [if_neg hnotskip, if_pos hb, if_pos ⟨hne, hover⟩]
  · intro hnot
    unfold groupStep
    rw [if_neg hnotskip, if_pos hb, if_neg hnot]

/-- Witness for C5: a 500-word list block arriving on a 600-word open group
closes that group and starts a new group holding just the list block, and the
flattened groups of a mixed sequence are the sequence itself. -/
theorem c5_witness :
    (listBlock500.type = ContentType.CODE ∨ listBlock500.type = ContentType.EQUATION ∨
      listBlock500.type = ContentType.LIST) ∧
    (groupBlocksIntoChunks [paraBlock600, listBlock400, listBlock500]).flatten =
      [paraBlock600, listBlock400, listBlock500] ∧
    groupStep ⟨[], [paraBlock600], 600⟩ listBlock500 =
      ⟨[[paraBlock600]], [listBlock500], 500⟩ :=
  ⟨by decide,
   (c5_atomic_blocks_whole [paraBlock600, listBlock400, listBlock500]
      ⟨[], [paraBlock600], 600⟩ listBlock500 (by decide)).1,
   (c5_atomic_blocks_whole [paraBlock600, listBlock400, listBlock500]
      ⟨[], [paraBlock600], 600⟩ listBlock500 (by decide)).2.1 (by decide) (by decide)⟩

/-- Mapping an index-reading function over an `enum`-built list yields the
offset index range. -/
theorem enum_map_index {α β : Type} (l : List α) (f : Nat × α → β) (g : β → Nat)
    (k : Nat) (h : ∀ p, g (f p) = k + p.1) :
    (l.enum.map f).map g = (List.range (l.enum.map f).length).map (fun i => k + i) := by
  rw [List.map_map, List.length_map, List.enum_length]
  have h1 : (g ∘ f) = (fun p : Nat × α => k + p.1) := funext h
  rw [h1]
  have h2 : (fun p : Nat × α => k + p.1) = (fun i => k + i) ∘ Prod.fst := rfl
  rw [h2, ← List.map_map, List.enum_map_fst]

/-- The chunk indices assigned by `_process_section` starting at `k` are
`k, k+1, ...`. -/
theorem processSection_indices (n : Nat) (t : String) (sec : SectionD) (k : Nat) :
    (processSection n t sec k).map (fun c => c.metadata.chunk_index) =
      (List.range (processSection n t sec k).length).map (fun i => k + i) := by
  unfold processSection
  exact enum_map_index _ _ _ k (fun p => rfl)

/-- Invariant of the section loop in `process_file`: if the accumulated
chunks carry the dense indices `0..len-1` and the running index equals their
count, the loop preserves this. -/
theorem processFold_indices (secs : List SectionD) (n : Nat) (t : String)
    (acc : List ProcessedChunk × Nat)
    (h1 : acc.1.map (fun c => c.metadata.chunk_index) = List.range acc.1.length)
    (h2 : acc.2 = acc.1.length) :
    (secs.foldl
      (fun (acc : List ProcessedChunk × Nat) sec =>
        let cks := processSection n t sec acc.2
        (acc.1 ++ cks, acc.2 + cks.length)) acc).1.map
        (fun c => c.metadata.chunk_index) =
      List.range (secs.foldl
        (fun (acc : List ProcessedChunk × Nat) sec =>
          let cks := processSection n t sec acc.2
          (acc.1 ++ cks, acc.2 + cks.length)) acc).1.length := by
  induction secs generalizing acc with
  | nil => exact h1
  | cons sec rest ih =>
    rw [List.foldl_cons]
    apply ih
    · show (acc.1 ++ processSection n t sec acc.2).map (fun c => c.metadata.chunk_index)
        = List.range (acc.1 ++ processSection n t sec acc.2).length
      rw [List.map_append, h1, processSection_indices, List.length_append,
          List.range_add, h2]
    · show acc.2 + (processSection n t sec acc.2).length
        = (acc.1 ++ processSection n t sec acc.2).length
      rw [List.length_append, h2]

/-- C7: for every document that `process_file` processes successfully into N
chunks, the `chunk_index` values in document order are exactly
`0, 1, ..., N-1`. -/
theorem c7_chunk_indices_dense (content : String) (chunks : List ProcessedChunk)
    (h : processFile content = .ok chunks) :
    chunks.map (fun c => c.metadata.chunk_index) = List.range chunks.length := by
  unfold processFile at h
  rcases hch : extractChapterInfo content with _ | info
  · rw [hch] at h
    cases h
  · rw [hch] at h
    simp only [Except.ok.injEq] at h
    subst h
    exact processFold_indices (splitIntoSections content) info.1 info.2 ([], 0) rfl rfl

/-- Witness for C7 at a concrete two-section document. -/
theorem c7_witness :
    processFile sampleTwoSectionDoc = .ok sampleTwoSectionChunks ∧
    sampleTwoSectionChunks.map (fun c => c.metadata.chunk_index) =
      List.range sampleTwoSectionChunks.length :=
  ⟨by decide,
   c7_chunk_indices_dense sampleTwoSectionDoc sampleTwoSectionChunks (by decide)⟩

/-- When no line opens a section, the section loop ends with its accumulator
unchanged. -/
theorem splitSectionsAux_no_match (ls : List String)
    (h : ∀ l ∈ ls, sectionLineMatch l = none) :
    ∀ acc, splitSectionsAux ls none acc = acc := by
  induction ls with
  | nil => intro acc; rfl
  | cons l rest ih =>
    intro acc
    have hl := h l (List.mem_cons_self _ _)
    simp only [splitSectionsAux, hl]
    exact ih (fun x hx => h x (List.mem_cons_of_mem _ hx)) acc

/-- The section loop ignores every line before the first section-header
line. -/
theorem splitSectionsAux_dropWhile (ls : List String) :
    splitSectionsAux ls none [] =
      splitSectionsAux (ls.dropWhile (fun l => (sectionLineMatch l).isNone)) none [] := by
  induction ls with
  | nil => rfl
  | cons l rest ih =>
    cases hl : sectionLineMatch l with
    | none =>
      simp only [splitSectionsAux, hl, List.dropWhile_cons, Option.isNone_none, if_pos]
      exact ih
    | some g =>
      simp [List.dropWhile_cons, hl]

/-- C10: a document with a chapter heading but no line matching the section
pattern is processed into `ok []` — no exception, zero chunks; and in
general the section splitter ignores every line before the first
section-header line, so such lines end up in no section and no chunk. -/
theorem c10_no_section_lines_ok_empty (content : String) (info : Nat × String)
    (hch : extractChapterInfo content = some info)
    (hsec : ∀ l ∈ pyLines content, sectionLineMatch l = none) :
    processFile content = .ok [] ∧
    ∀ ls : List String,
      splitSectionsAux ls none [] =
        splitSectionsAux (ls.dropWhile (fun l => (sectionLineMatch l).isNone)) none [] := by
  constructor
  · have hempty : splitIntoSections content = [] :=
      splitSectionsAux_no_match (pyLines content) hsec []
    simp [processFile, hch, splitIntoSections] at hempty ⊢
    simp [hempty]
  · intro ls
    exact splitSectionsAux_dropWhile ls

/-- Witness for C10 at a chapter document with no section header. -/
theorem c10_witness :
    extractChapterInfo sampleNoSectionDoc = some (1, "A") ∧
    processFile sampleNoSectionDoc = .ok [] :=
  ⟨by decide,
   (c10_no_section_lines_ok_empty sampleNoSectionDoc (1, "A")
      (by decide) (by decide)).1⟩

/-- Witness for C9: a collaborator failing on both attempts yields the second
error after exactly two calls. -/
theorem c9_witness :
    (("Hvað er jón?" : String) ≠ "") ∧
    generateAnswer "Hvað er jón?" ([] : List (RagChunk Nat)) 4
        (fun _ _ => .error "rate limited") = (.error "rate limited", 2) :=
  ⟨by decide,
   ((c9_generation_retry_bounded "Hvað er jón?" ([] : List (RagChunk Nat)) 4
       (fun _ _ => .error "rate limited") (by decide)).2.2 "rate limited" rfl).2
     "rate limited" rfl⟩

end ChemTutor
